import Mathlib

/-!
Verification of the Ayesha player-state core (`Utilities/PlayerObject.py`).

The Python source is shallowly embedded: pure methods become Lean functions,
stateful methods become explicit state-passing functions over record types
holding both the in-memory attributes of the `Player` object and the durable
columns that the corresponding SQL statements touch, and fallible methods
return `Except`.  Machine integers are modelled with `Nat`/`Int` (Python ints
are unbounded).  Value objects that live in modules outside this repository
slice (ItemObject, AcolyteObject, AssociationObject, Vars) are modelled from
the specification, each marked `Modelled from the spec:` in its doc comment.
-/

namespace Ayesha

/-! ## Progression curve (`Player.get_level`)

Source:
```
def f(x): return int(10 * x**3 + 500)
def g(x): return int(1/5 * x**4 + 108500)
if self.xp <= 540500:
    level = 0
    while (self.xp >= f(level)): level += 1
else:
    level = 31
    while (self.xp >= g(level)): level += 1
level = level - 1 if level > 0 else 0
if get_next:
    if level >= 30: return level, g(level+1) - self.xp
    else: return level, f(level+1) - self.xp
else: return level
```
`g` uses Python float arithmetic `1/5 * x**4 + 108500`; for every magnitude
reachable in the program this equals the exact `x^4 / 5 + 108500` with
truncating division, which is how it is embedded here. -/

def f (x : Nat) : Nat := 10 * x ^ 3 + 500

def g (x : Nat) : Nat := x ^ 4 / 5 + 108500

/-- The `while (xp >= cmp(level)): level += 1` loop of `get_level`, rendered
with explicit fuel.  `get_level` always passes fuel `xp + 1`, which is proved
below to be more than the loop ever consumes, so the rendering is faithful to
the unbounded Python loop. -/
def searchFrom (cmp : Nat → Nat) (xp : Nat) : Nat → Nat → Nat
  | 0, n => n
  | fuel + 1, n => if cmp n ≤ xp then searchFrom cmp xp fuel (n + 1) else n

theorem searchFrom_ge (cmp : Nat → Nat) (xp fuel : Nat) :
    ∀ n, n ≤ searchFrom cmp xp fuel n := by
  induction fuel with
  | zero => intro n; exact Nat.le_refl n
  | succ fuel ih =>
    intro n
    simp only [searchFrom]
    split
    · exact Nat.le_trans (Nat.le_succ n) (ih (n + 1))
    · exact Nat.le_refl n

theorem searchFrom_below (cmp : Nat → Nat) (xp fuel : Nat) :
    ∀ n m, n ≤ m → m < searchFrom cmp xp fuel n → cmp m ≤ xp := by
  induction fuel with
  | zero =>
    intro n m h1 h2
    simp only [searchFrom] at h2
    omega
  | succ fuel ih =>
    intro n m h1 h2
    simp only [searchFrom] at h2
    by_cases hc : cmp n ≤ xp
    · rw [if_pos hc] at h2
      rcases Nat.eq_or_lt_of_le h1 with he | hl
      · rw [← he]; exact hc
      · exact ih (n + 1) m hl h2
    · rw [if_neg hc] at h2
      omega

theorem searchFrom_stop (cmp : Nat → Nat) (xp fuel : Nat) :
    ∀ n, searchFrom cmp xp fuel n < n + fuel →
      xp < cmp (searchFrom cmp xp fuel n) := by
  induction fuel with
  | zero =>
    intro n h
    simp only [searchFrom] at h
    omega
  | succ fuel ih =>
    intro n h
    simp only [searchFrom] at h ⊢
    by_cases hc : cmp n ≤ xp
    · rw [if_pos hc] at h ⊢
      exact ih (n + 1) (by omega)
    · rw [if_neg hc] at h ⊢
      omega

theorem searchFrom_le (cmp : Nat → Nat) (xp fuel n M : Nat)
    (h1 : n ≤ M) (h2 : xp < cmp M) : searchFrom cmp xp fuel n ≤ M := by
  by_contra h
  exact absurd (searchFrom_below cmp xp fuel n M h1 (Nat.lt_of_not_le h))
    (Nat.not_le_of_lt h2)

/-- `Player.get_level()` (without `get_next`): the xp-to-level map. -/
def get_level (xp : Nat) : Nat :=
  if xp ≤ 540500 then searchFrom f xp (xp + 1) 0 - 1
  else searchFrom g xp (xp + 1) 31 - 1

/-- `Player.get_level(get_next=True)`: level together with the xp gap the
source reports to the next threshold (an `Int`, since the source computes a
plain difference). -/
def get_level_next (xp : Nat) : Nat × Int :=
  let level := get_level xp
  if 30 ≤ level then (level, (g (level + 1) : Int) - (xp : Int))
  else (level, (f (level + 1) : Int) - (xp : Int))

theorem f_mono {m n : Nat} (h : m ≤ n) : f m ≤ f n := by
  unfold f
  have := Nat.pow_le_pow_left h 3
  omega

theorem f_strict {m n : Nat} (h : m < n) : f m < f n := by
  unfold f
  have := Nat.pow_lt_pow_left h (by norm_num : (3 : Nat) ≠ 0)
  omega

theorem g_mono {m n : Nat} (h : m ≤ n) : g m ≤ g n := by
  unfold g
  have h1 := Nat.pow_le_pow_left h 4
  have h2 := Nat.div_le_div_right (c := 5) h1
  omega

theorem g_strict {m n : Nat} (h1 : 1 ≤ m) (h2 : m < n) : g m < g n := by
  unfold g
  have hm3 : 1 ≤ m ^ 3 := Nat.one_le_pow 3 m (by omega)
  have hexp : (m + 1) ^ 4 = m ^ 4 + 4 * m ^ 3 + 6 * m ^ 2 + 4 * m + 1 := by ring
  have hstep : m ^ 4 + 5 ≤ (m + 1) ^ 4 := by
    rw [hexp]
    have : 1 ≤ m ^ 2 := Nat.one_le_pow 2 m (by omega)
    omega
  have hdiv1 : m ^ 4 / 5 + 1 = (m ^ 4 + 5) / 5 := by
    omega
  have hdiv2 : (m ^ 4 + 5) / 5 ≤ (m + 1) ^ 4 / 5 := Nat.div_le_div_right hstep
  have hmono : (m + 1) ^ 4 ≤ n ^ 4 := Nat.pow_le_pow_left (by omega) 4
  have hdiv3 : (m + 1) ^ 4 / 5 ≤ n ^ 4 / 5 := Nat.div_le_div_right hmono
  omega

theorem le_g_self {L : Nat} (h : 2 ≤ L) : L ≤ g L := by
  unfold g
  have h3 : 5 ≤ L ^ 3 := by
    have := Nat.pow_le_pow_left h 3
    omega
  have hmul : L * 5 ≤ L ^ 4 := by
    have : L * 5 ≤ L * L ^ 3 := Nat.mul_le_mul_left L h3
    have hpow : L * L ^ 3 = L ^ 4 := by ring
    omega
  have := (Nat.le_div_iff_mul_le (by norm_num : 0 < 5)).mpr hmul
  omega

theorem get_level_cubic_eq (xp L : Nat) (hxp : xp ≤ 540500)
    (h1 : f L ≤ xp) (h2 : xp < f (L + 1)) : get_level xp = L := by
  unfold get_level
  rw [if_pos hxp]
  have hL3 : L ≤ L ^ 3 := Nat.le_self_pow (by norm_num) L
  have hfL : L + 1 ≤ f L := by unfold f; omega
  have hle : searchFrom f xp (xp + 1) 0 ≤ L + 1 :=
    searchFrom_le f xp (xp + 1) 0 (L + 1) (Nat.zero_le _) h2
  have hstop : xp < f (searchFrom f xp (xp + 1) 0) :=
    searchFrom_stop f xp (xp + 1) 0 (by omega)
  have hgt : L < searchFrom f xp (xp + 1) 0 := by
    by_contra hns
    have := f_mono (Nat.le_of_not_lt hns)
    omega
  omega

theorem get_level_lt500 (xp : Nat) (h : xp < 500) : get_level xp = 0 := by
  unfold get_level
  rw [if_pos (by omega)]
  have hf0 : f 0 = 500 := by norm_num [f]
  have hle : searchFrom f xp (xp + 1) 0 ≤ 0 :=
    searchFrom_le f xp (xp + 1) 0 0 (Nat.le_refl 0) (by omega)
  omega

theorem get_level_quartic_eq (xp L : Nat) (hxp : 540500 < xp) (hL : 30 ≤ L)
    (h1 : g L ≤ xp) (h2 : xp < g (L + 1)) : get_level xp = L := by
  unfold get_level
  rw [if_neg (by omega)]
  have hLg : L ≤ g L := le_g_self (by omega)
  have hle : searchFrom g xp (xp + 1) 31 ≤ L + 1 :=
    searchFrom_le g xp (xp + 1) 31 (L + 1) (by omega) h2
  have hstop : xp < g (searchFrom g xp (xp + 1) 31) :=
    searchFrom_stop g xp (xp + 1) 31 (by omega)
  have hgt : L < searchFrom g xp (xp + 1) 31 := by
    by_contra hns
    have := g_mono (Nat.le_of_not_lt hns)
    omega
  omega

theorem cubic_le37 (xp : Nat) (hxp : xp ≤ 540500) : get_level xp ≤ 37 := by
  unfold get_level
  rw [if_pos hxp]
  have h38 : f 38 = 549220 := by norm_num [f]
  have hle : searchFrom f xp (xp + 1) 0 ≤ 38 :=
    searchFrom_le f xp (xp + 1) 0 38 (Nat.zero_le _) (by omega)
  omega

theorem quartic_ge38 (xp : Nat) (hxp : 540500 < xp) : 38 ≤ get_level xp := by
  unfold get_level
  rw [if_neg (by omega)]
  have hM : xp < g (xp + 31) := by
    have := le_g_self (L := xp + 31) (by omega)
    omega
  have hle : searchFrom g xp (xp + 1) 31 ≤ xp + 31 :=
    searchFrom_le g xp (xp + 1) 31 (xp + 31) (by omega) hM
  have hstop : xp < g (searchFrom g xp (xp + 1) 31) :=
    searchFrom_stop g xp (xp + 1) 31 (by omega)
  have h39 : 39 ≤ searchFrom g xp (xp + 1) 31 := by
    by_contra hns
    have hg38 : g 38 = 525527 := by norm_num [g]
    have := g_mono (n := 38) (m := searchFrom g xp (xp + 1) 31) (by omega)
    omega
  omega

theorem get_level_mono (a b : Nat) (h : a ≤ b) : get_level a ≤ get_level b := by
  by_cases hb : b ≤ 540500
  · have ha : a ≤ 540500 := by omega
    unfold get_level
    rw [if_pos ha, if_pos hb]
    have hbb : searchFrom f b (b + 1) 0 ≤ b := by
      rcases Nat.lt_or_ge b 500 with hlt | hge
      · have : searchFrom f b (b + 1) 0 ≤ 0 :=
          searchFrom_le f b (b + 1) 0 0 (Nat.le_refl 0)
            (by norm_num [f]; omega)
        omega
      · have h38 : f 38 = 549220 := by norm_num [f]
        have : searchFrom f b (b + 1) 0 ≤ 38 :=
          searchFrom_le f b (b + 1) 0 38 (Nat.zero_le _) (by omega)
        omega
    have hstop : b < f (searchFrom f b (b + 1) 0) :=
      searchFrom_stop f b (b + 1) 0 (by omega)
    have hmono : searchFrom f a (a + 1) 0 ≤ searchFrom f b (b + 1) 0 := by
      by_contra hc
      have := searchFrom_below f a (a + 1) 0 (searchFrom f b (b + 1) 0)
        (Nat.zero_le _) (Nat.lt_of_not_le hc)
      omega
    omega
  · by_cases ha : a ≤ 540500
    · have h1 := cubic_le37 a ha
      have h2 := quartic_ge38 b (by omega)
      omega
    · unfold get_level
      rw [if_neg ha, if_neg hb]
      have hM : b < g (b + 31) := by
        have := le_g_self (L := b + 31) (by omega)
        omega
      have hbb : searchFrom g b (b + 1) 31 ≤ b + 31 :=
        searchFrom_le g b (b + 1) 31 (b + 31) (by omega) hM
      have hstop : b < g (searchFrom g b (b + 1) 31) :=
        searchFrom_stop g b (b + 1) 31 (by omega)
      have hmono : searchFrom g a (a + 1) 31 ≤ searchFrom g b (b + 1) 31 := by
        by_contra hc
        have hge := searchFrom_ge g b (b + 1) 31
        have := searchFrom_below g a (a + 1) 31 (searchFrom g b (b + 1) 31)
          hge (Nat.lt_of_not_le hc)
        omega
      omega

/-- In the cubic branch the reported level always satisfies
`xp < f (level + 1)`, i.e. the cubic gap is positive. -/
theorem cubic_next_pos (xp : Nat) (hxp : xp ≤ 540500) :
    xp < f (get_level xp + 1) := by
  have hlvl : get_level xp = searchFrom f xp (xp + 1) 0 - 1 := by
    unfold get_level
    rw [if_pos hxp]
  rcases Nat.eq_zero_or_pos (searchFrom f xp (xp + 1) 0) with h0 | hpos
  · have hstop : xp < f (searchFrom f xp (xp + 1) 0) :=
      searchFrom_stop f xp (xp + 1) 0 (by omega)
    rw [h0] at hstop
    have : f 0 ≤ f (get_level xp + 1) := f_mono (by omega)
    omega
  · have h500 : f 0 ≤ xp :=
      searchFrom_below f xp (xp + 1) 0 0 (Nat.le_refl 0) hpos
    have hf0 : f 0 = 500 := by norm_num [f]
    have h38 : f 38 = 549220 := by norm_num [f]
    have hle : searchFrom f xp (xp + 1) 0 ≤ 38 :=
      searchFrom_le f xp (xp + 1) 0 38 (Nat.zero_le _) (by omega)
    have hstop : xp < f (searchFrom f xp (xp + 1) 0) :=
      searchFrom_stop f xp (xp + 1) 0 (by omega)
    have : get_level xp + 1 = searchFrom f xp (xp + 1) 0 := by omega
    rw [this]
    exact hstop

/-- In the quartic branch the reported level always satisfies
`xp < g (level + 1)`, i.e. the quartic gap is positive. -/
theorem quartic_next_pos (xp : Nat) (hxp : 540500 < xp) :
    xp < g (get_level xp + 1) := by
  have hlvl : get_level xp = searchFrom g xp (xp + 1) 31 - 1 := by
    unfold get_level
    rw [if_neg (by omega)]
  have hge := searchFrom_ge g xp (xp + 1) 31
  have hM : xp < g (xp + 31) := by
    have := le_g_self (L := xp + 31) (by omega)
    omega
  have hle : searchFrom g xp (xp + 1) 31 ≤ xp + 31 :=
    searchFrom_le g xp (xp + 1) 31 (xp + 31) (by omega) hM
  have hstop : xp < g (searchFrom g xp (xp + 1) 31) :=
    searchFrom_stop g xp (xp + 1) 31 (by omega)
  have : get_level xp + 1 = searchFrom g xp (xp + 1) 31 := by omega
  rw [this]
  exact hstop

/-- C1 (counterexample): at xp = 293204 the cubic branch reports level 30,
but `get_next` then uses the quartic threshold `g 31 = 293204`, so the
returned remaining component is 0, not strictly positive as the claim
states. -/
theorem C1_counterexample : ¬ 0 < (get_level_next 293204).2 := by
  have hlvl : get_level 293204 = 30 :=
    get_level_cubic_eq 293204 30 (by norm_num) (by norm_num [f]) (by norm_num [f])
  have hg : g 31 = 293204 := by norm_num [g]
  simp only [get_level_next, hlvl, hg]
  norm_num

/-- C1 (amended): the remaining component of `xp_to_next` is strictly
positive whenever the computed level is below 30 or xp is past the 540500
branch point (it can be zero or negative only when the cubic branch computes
a level of 30..37 while xp has already reached the quartic threshold
`g (level+1)`); at one below a cubic threshold `f L` with `L ≤ 30` the pair
is `(L-1, 1)`, and at one below a quartic threshold `g L` with `39 ≤ L`
(so that the xp value lies in the quartic branch) the pair is `(L-1, 1)`. -/
theorem C1_xp_to_next_amended :
    (∀ xp : Nat, get_level xp < 30 ∨ 540500 < xp → 0 < (get_level_next xp).2) ∧
    (∀ L : Nat, 1 ≤ L → L ≤ 30 → get_level_next (f L - 1) = (L - 1, 1)) ∧
    (∀ L : Nat, 39 ≤ L → get_level_next (g L - 1) = (L - 1, 1)) := by
  refine ⟨?_, ?_, ?_⟩
  · intro xp h
    rcases h with hlt | hgt
    · have hxp : xp ≤ 540500 := by
        by_contra hc
        have := quartic_ge38 xp (by omega)
        omega
      have hpos := cubic_next_pos xp hxp
      have hcast : (xp : Int) < (f (get_level xp + 1) : Int) := by exact_mod_cast hpos
      simp only [get_level_next]
      rw [if_neg (by omega)]
      omega
    · have h30 : 30 ≤ get_level xp := by
        have := quartic_ge38 xp hgt
        omega
      have hpos := quartic_next_pos xp hgt
      have hcast : (xp : Int) < (g (get_level xp + 1) : Int) := by exact_mod_cast hpos
      simp only [get_level_next]
      rw [if_pos h30]
      omega
  · intro L h1 h30
    have hf1 : 500 ≤ f L := by unfold f; omega
    have hfL30 : f L ≤ f 30 := f_mono h30
    have hf30 : f 30 = 270500 := by norm_num [f]
    have hxp : f L - 1 ≤ 540500 := by omega
    have hstrict : f (L - 1) < f L := f_strict (by omega)
    have hL1 : L - 1 + 1 = L := by omega
    have hlvl : get_level (f L - 1) = L - 1 := by
      apply get_level_cubic_eq _ _ hxp
      · omega
      · rw [hL1]; omega
    simp only [get_level_next, hlvl]
    rw [if_neg (by omega), hL1]
    simp only [Prod.mk.injEq]
    exact ⟨trivial, by omega⟩
  · intro L h39
    have hg1 : g 39 ≤ g L := g_mono h39
    have hg39 : g 39 = 571188 := by norm_num [g]
    have hxp : 540500 < g L - 1 := by omega
    have hstrict : g (L - 1) < g L := g_strict (by omega) (by omega)
    have hL1 : L - 1 + 1 = L := by omega
    have hlvl : get_level (g L - 1) = L - 1 := by
      apply get_level_quartic_eq _ _ hxp (by omega)
      · omega
      · rw [hL1]; omega
    simp only [get_level_next, hlvl]
    rw [if_pos (by omega), hL1]
    simp only [Prod.mk.injEq]
    exact ⟨trivial, by omega⟩

/-- C1 witness: the amended theorem applied at xp = 0, at the level-1
threshold `f 1 = 510`, and at the level-39 threshold `g 39 = 571188`. -/
theorem C1_witness :
    0 < (get_level_next 0).2 ∧
    get_level_next (f 1 - 1) = (1 - 1, 1) ∧
    get_level_next (g 39 - 1) = (39 - 1, 1) := by
  refine ⟨C1_xp_to_next_amended.1 0 (Or.inl ?_),
    C1_xp_to_next_amended.2.1 1 (by norm_num) (by norm_num),
    C1_xp_to_next_amended.2.2 39 (by norm_num)⟩
  have := get_level_lt500 0 (by norm_num)
  omega

/-- C6: `get_level` is monotonically non-decreasing in xp, is 0 for all
xp < 500, and gaining 1 xp at the 540500 branch point moves the level from
37 to 38: no level number is skipped or repeated when crossing from the
cubic into the quartic curve. -/
theorem C6_level_curve :
    (∀ a b : Nat, a ≤ b → get_level a ≤ get_level b) ∧
    (∀ xp : Nat, xp < 500 → get_level xp = 0) ∧
    get_level 540501 = get_level 540500 + 1 := by
  refine ⟨get_level_mono, get_level_lt500, ?_⟩
  have h1 : get_level 540500 = 37 :=
    get_level_cubic_eq 540500 37 (by norm_num) (by norm_num [f]) (by norm_num [f])
  have h2 : get_level 540501 = 38 :=
    get_level_quartic_eq 540501 38 (by norm_num) (by norm_num) (by norm_num [g])
      (by norm_num [g])
  omega

/-- C6 witness: monotonicity and the sub-500 clamp at concrete inputs. -/
theorem C6_witness : get_level 100 ≤ get_level 200 ∧ get_level 499 = 0 :=
  ⟨C6_level_curve.1 100 200 (by norm_num), C6_level_curve.2.1 499 (by norm_num)⟩

/-! ## Resources (`Player.give_resource`, `Player.get_backpack`)

Source:
```
try:
    if amount < 0 and amount*-1 > self.resources[resource]:
        raise Checks.NotEnoughResources(resource,
            amount*-1 - self.resources[resource],
            self.resources[resource])
except KeyError:
    raise Checks.InvalidResource
psql = f"UPDATE resources SET {resource} = {resource} + $1 WHERE user_id = $2;"
await conn.execute(psql, amount, self.disc_id)
```
`self.resources` is the dict built by `_load_equips` from the eleven columns
returned by `get_backpack`; it is modelled as an association list.  Note the
short-circuit in `amount < 0 and ...`: for `amount >= 0` the dict is never
indexed, so no `KeyError` (and hence no `InvalidResource`) can arise, and the
update statement is issued regardless of the resource name. -/

inductive ResourceError
  | invalidResource
  | notEnoughResources (resource : String) (shortfall : Int) (balance : Int)
deriving DecidableEq

structure ResourceState where
  resources : List (String × Int)
  db_resources : List (String × Int)
deriving DecidableEq

/-- The effect of `UPDATE resources SET r = r + $1` on the stored row. -/
def db_add (l : List (String × Int)) (resource : String) (amount : Int) :
    List (String × Int) :=
  l.map fun kv => if kv.1 = resource then (kv.1, kv.2 + amount) else kv

def give_resource (p : ResourceState) (resource : String) (amount : Int) :
    Except ResourceError ResourceState :=
  if amount < 0 then
    match p.resources.lookup resource with
    | none => Except.error ResourceError.invalidResource
    | some balance =>
      if balance < -amount then
        Except.error
          (ResourceError.notEnoughResources resource (-amount - balance) balance)
      else
        Except.ok { p with db_resources := db_add p.db_resources resource amount }
  else
    Except.ok { p with db_resources := db_add p.db_resources resource amount }

/-- A hydrated resource bag with the eleven known resource names (wheat at
balance 40, as in the specification's worked example). -/
def test_resources : ResourceState :=
  { resources := [("wheat", 40), ("oat", 0), ("wood", 0), ("reeds", 0),
      ("pine", 0), ("moss", 0), ("iron", 0), ("cacao", 0), ("fur", 0),
      ("bone", 0), ("silver", 0)],
    db_resources := [("wheat", 40), ("oat", 0), ("wood", 0), ("reeds", 0),
      ("pine", 0), ("moss", 0), ("iron", 0), ("cacao", 0), ("fur", 0),
      ("bone", 0), ("silver", 0)] }

/-- C2 (counterexample): giving a positive amount of the unknown resource
"gemstones" does not fail with `InvalidResource` (the `amount < 0` guard
short-circuits before the dict is indexed); the call goes through to the
update statement. -/
theorem C2_counterexample :
    give_resource test_resources ("gemstones") 5 ≠
      Except.error ResourceError.invalidResource := by
  simp [give_resource]

/-- C2 (amended): an unknown resource name fails with `InvalidResource` only
when the amount is negative (for a non-negative amount the known-name check is
skipped entirely); for a known resource, a negative amount whose magnitude
exceeds the balance fails with `NotEnoughResources` carrying the shortfall
(magnitude minus balance) and the current balance, and no state is changed on
either failure. -/
theorem C2_give_resource_amended :
    (∀ (p : ResourceState) (resource : String) (amount : Int),
        amount < 0 → p.resources.lookup resource = none →
        give_resource p resource amount =
          Except.error ResourceError.invalidResource) ∧
    (∀ (p : ResourceState) (resource : String) (amount balance : Int),
        p.resources.lookup resource = some balance →
        amount < 0 → balance < -amount →
        give_resource p resource amount =
          Except.error
            (ResourceError.notEnoughResources resource (-amount - balance)
              balance)) := by
  constructor
  · intro p resource amount hneg hnone
    unfold give_resource
    rw [if_pos hneg, hnone]
  · intro p resource amount balance hsome hneg hlow
    unfold give_resource
    rw [if_pos hneg, hsome]
    simp only [if_pos hlow]

/-- C2 witness: the specification's worked example — wheat balance 40,
delta −100 — fails with shortfall 60 and balance 40; an unknown name with a
negative delta fails with `InvalidResource`. -/
theorem C2_witness :
    give_resource test_resources ("wheat") (-100) =
      Except.error (ResourceError.notEnoughResources ("wheat") 60 40) ∧
    give_resource test_resources ("gemstones") (-3) =
      Except.error ResourceError.invalidResource := by
  constructor
  · have h := C2_give_resource_amended.2 test_resources ("wheat") (-100) 40
      (by rfl) (by norm_num) (by norm_num)
    simpa using h
  · exact C2_give_resource_amended.1 test_resources ("gemstones") (-3)
      (by norm_num) (by rfl)

/-- C10: a successful `give_resource` call issues the durable increment but
leaves the aggregate's in-memory resource dict untouched, so an in-memory
read still returns the pre-call balance until re-hydration. -/
theorem C10_give_resource_frame :
    ∀ (p : ResourceState) (resource : String) (amount : Int)
      (q : ResourceState),
      give_resource p resource amount = Except.ok q →
      q.resources = p.resources ∧
      q.db_resources = db_add p.db_resources resource amount := by
  intro p resource amount q h
  unfold give_resource at h
  by_cases hneg : amount < 0
  · rw [if_pos hneg] at h
    cases hl : p.resources.lookup resource with
    | none => rw [hl] at h; exact Except.noConfusion h
    | some balance =>
      rw [hl] at h
      dsimp only at h
      by_cases hlow : balance < -amount
      · rw [if_pos hlow] at h
        exact Except.noConfusion h
      · rw [if_neg hlow] at h
        injection h with h
        rw [← h]
        exact ⟨rfl, rfl⟩
  · rw [if_neg hneg] at h
    injection h with h
    rw [← h]
    exact ⟨rfl, rfl⟩

/-- C10 witness: giving 5 wheat updates only the stored row. -/
theorem C10_witness :
    ({ test_resources with
        db_resources := db_add test_resources.db_resources ("wheat") 5 } :
          ResourceState).resources = test_resources.resources ∧
    ({ test_resources with
        db_resources := db_add test_resources.db_resources ("wheat") 5 } :
          ResourceState).db_resources =
      db_add test_resources.db_resources ("wheat") 5 :=
  C10_give_resource_frame test_resources ("wheat") 5 _ (by rfl)

/-! ## Companions (`Player.equip_acolyte`, `Player.is_acolyte_owner`)

Source:
```
if slot not in (1, 2):
    raise Checks.InvalidAcolyteEquip
if not self.is_acolyte_owner(conn, acolyte_id):
    raise Checks.NotAcolyteOwner
a = acolyte_id == self.acolyte1.acolyte_id
b = acolyte_id == self.acolyte2.acolyte_id
if a or b:
    raise Checks.InvalidAcolyteEquip
if slot == 1:
    self.acolyte1 = AcolyteObject.get_acolyte_by_id(conn, acolyte_id)
    psql = "UPDATE players SET acolyte1 = $1 ..."
elif slot == 2: ...
```
Two aspects of the source are embedded exactly as written: `is_acolyte_owner`
is an async method invoked WITHOUT `await`, so the `if not <coroutine>` test
is always false (a coroutine object is truthy) and `NotAcolyteOwner` is never
raised; and the successful branch assigns the un-awaited coroutine returned
by `get_acolyte_by_id` to the slot, so a later read of that slot's
`acolyte_id` attribute raises `AttributeError`.  A slot therefore holds
either a hydrated acolyte (as `_load_equips` leaves it) or such a coroutine
object. -/

structure Acolyte where
  acolyte_id : Option Nat
  acolyte_name : Option String
  /-- Modelled from the spec: the companion's attack contribution
  (`Acolyte.get_attack`, external value object; the empty variant
  contributes 0). -/
  atk : Int
deriving DecidableEq

def Acolyte.get_attack (a : Acolyte) : Int := a.atk

/-- Modelled from the spec: the canonical empty companion (`Acolyte()`),
whose identity fields are unset and whose contributions are zero. -/
def empty_acolyte : Acolyte :=
  { acolyte_id := none, acolyte_name := none, atk := 0 }

inductive AcolyteSlot
  | loaded (a : Acolyte)
  | coroutine (acolyte_id : Nat)
deriving DecidableEq

inductive AcolyteError
  | invalidAcolyteEquip
  | notAcolyteOwner
  | attributeError
deriving DecidableEq

/-- Reading `.acolyte_id` off a slot: fine on a hydrated acolyte, an
`AttributeError` on an un-awaited coroutine object. -/
def AcolyteSlot.read_id : AcolyteSlot → Except AcolyteError (Option Nat)
  | AcolyteSlot.loaded a => Except.ok a.acolyte_id
  | AcolyteSlot.coroutine _ => Except.error AcolyteError.attributeError

structure AcolytePlayer where
  acolyte1 : AcolyteSlot
  acolyte2 : AcolyteSlot
  /-- The acolyte IDs in this player's rows of the `acolytes` table (what
  `is_acolyte_owner` is meant to consult). -/
  owned_acolytes : List Nat
  db_acolyte1 : Option Nat
  db_acolyte2 : Option Nat
deriving DecidableEq

def equip_acolyte (p : AcolytePlayer) (acolyte_id slot : Nat) :
    Except AcolyteError AcolytePlayer :=
  if slot ≠ 1 ∧ slot ≠ 2 then Except.error AcolyteError.invalidAcolyteEquip
  else
    -- `if not self.is_acolyte_owner(conn, acolyte_id)`: the coroutine is not
    -- awaited and is truthy, so this branch can never raise NotAcolyteOwner.
    match p.acolyte1.read_id with
    | Except.error e => Except.error e
    | Except.ok id1 =>
      match p.acolyte2.read_id with
      | Except.error e => Except.error e
      | Except.ok id2 =>
        if id1 = some acolyte_id ∨ id2 = some acolyte_id then
          Except.error AcolyteError.invalidAcolyteEquip
        else if slot = 1 then
          Except.ok { p with acolyte1 := AcolyteSlot.coroutine acolyte_id,
                             db_acolyte1 := some acolyte_id }
        else
          Except.ok { p with acolyte2 := AcolyteSlot.coroutine acolyte_id,
                             db_acolyte2 := some acolyte_id }

/-- A freshly hydrated player with both companion slots empty and an empty
tavern (it owns no acolytes at all). -/
def test_acolyte_player : AcolytePlayer :=
  { acolyte1 := AcolyteSlot.loaded empty_acolyte,
    acolyte2 := AcolyteSlot.loaded empty_acolyte,
    owned_acolytes := [],
    db_acolyte1 := none, db_acolyte2 := none }

/-- The state after `equip_acolyte(7, 1)` on `test_acolyte_player`: slot 1
now holds the un-awaited coroutine. -/
def test_acolyte_player1 : AcolytePlayer :=
  { test_acolyte_player with acolyte1 := AcolyteSlot.coroutine 7,
                             db_acolyte1 := some 7 }

/-- C3 (counterexample): acolyte 7 is not owned, yet equipping it succeeds —
`NotAcolyteOwner` is never raised (the ownership coroutine is not awaited);
and the second attempt to equip the same companion into slot 2 raises
`AttributeError` (the slot holds a coroutine object), not any
duplicate-equip error. -/
theorem C3_counterexample :
    7 ∉ test_acolyte_player.owned_acolytes ∧
    equip_acolyte test_acolyte_player 7 1 = Except.ok test_acolyte_player1 ∧
    equip_acolyte test_acolyte_player1 7 2 =
      Except.error AcolyteError.attributeError := by
  refine ⟨by simp [test_acolyte_player], by rfl, by rfl⟩

/-- C3 (amended): a slot other than 1 or 2 raises `InvalidAcolyteEquip`;
`NotAcolyteOwner` is never raised by `equip_acolyte` (the async ownership
check is called without `await`, and its truthy coroutine makes the guard
pass); on a hydrated aggregate, equipping a companion already present in
either slot raises `InvalidAcolyteEquip` — the same error kind as the bad
slot, not a distinct duplicate-equip kind; and after one successful equip
into slot 1, a second equip touching slot 1's `acolyte_id` raises
`AttributeError` rather than any duplicate-equip error. -/
theorem C3_equip_acolyte_amended :
    (∀ (p : AcolytePlayer) (acolyte_id slot : Nat), slot ≠ 1 → slot ≠ 2 →
        equip_acolyte p acolyte_id slot =
          Except.error AcolyteError.invalidAcolyteEquip) ∧
    (∀ (p : AcolytePlayer) (acolyte_id slot : Nat),
        equip_acolyte p acolyte_id slot ≠
          Except.error AcolyteError.notAcolyteOwner) ∧
    (∀ (p : AcolytePlayer) (acolyte_id slot : Nat) (a1 a2 : Acolyte),
        p.acolyte1 = AcolyteSlot.loaded a1 →
        p.acolyte2 = AcolyteSlot.loaded a2 →
        (a1.acolyte_id = some acolyte_id ∨ a2.acolyte_id = some acolyte_id) →
        equip_acolyte p acolyte_id slot =
          Except.error AcolyteError.invalidAcolyteEquip) ∧
    (∀ (p : AcolytePlayer) (acolyte_id : Nat) (q : AcolytePlayer),
        equip_acolyte p acolyte_id 1 = Except.ok q →
        equip_acolyte q acolyte_id 2 =
          Except.error AcolyteError.attributeError) := by
  refine ⟨?_, ?_, ?_, ?_⟩
  · intro p acolyte_id slot h1 h2
    unfold equip_acolyte
    rw [if_pos ⟨h1, h2⟩]
  · intro p acolyte_id slot
    unfold equip_acolyte
    split
    · simp
    · cases p.acolyte1 with
      | coroutine i => simp [AcolyteSlot.read_id]
      | loaded a1 =>
        cases p.acolyte2 with
        | coroutine i => simp [AcolyteSlot.read_id]
        | loaded a2 =>
          simp only [AcolyteSlot.read_id]
          split
          · simp
          · split <;> simp
  · intro p acolyte_id slot a1 a2 h1 h2 hdup
    unfold equip_acolyte
    rw [h1, h2]
    by_cases hs : slot ≠ 1 ∧ slot ≠ 2
    · rw [if_pos hs]
    · rw [if_neg hs]
      dsimp only [AcolyteSlot.read_id]
      rw [if_pos hdup]
  · intro p acolyte_id q h
    unfold equip_acolyte at h
    rw [if_neg (by simp)] at h
    have hq1 : q.acolyte1 = AcolyteSlot.coroutine acolyte_id := by
      cases hp1 : p.acolyte1 with
      | coroutine i =>
        rw [hp1] at h
        simp only [AcolyteSlot.read_id] at h
        exact Except.noConfusion h
      | loaded a1 =>
        rw [hp1] at h
        cases hp2 : p.acolyte2 with
        | coroutine i =>
          rw [hp2] at h
          simp only [AcolyteSlot.read_id] at h
          exact Except.noConfusion h
        | loaded a2 =>
          rw [hp2] at h
          dsimp only [AcolyteSlot.read_id] at h
          by_cases hdup : a1.acolyte_id = some acolyte_id ∨
              a2.acolyte_id = some acolyte_id
          · rw [if_pos hdup] at h
            exact Except.noConfusion h
          · rw [if_neg hdup] at h
            rw [if_pos (show (1 : Nat) = 1 from rfl)] at h
            injection h with h
            rw [← h]
    unfold equip_acolyte
    rw [if_neg (by simp), hq1]
    rfl

/-- C3 witness: the amended theorem at concrete inputs — bad slot 3,
duplicate of an equipped companion (id 5), never-NotAcolyteOwner, and the
coroutine-poisoned second attempt. -/
theorem C3_witness :
    equip_acolyte test_acolyte_player 9 3 =
      Except.error AcolyteError.invalidAcolyteEquip ∧
    equip_acolyte
      { test_acolyte_player with
          acolyte1 := AcolyteSlot.loaded
            { acolyte_id := some 5, acolyte_name := some ("Aulus"), atk := 3 } }
      5 2 = Except.error AcolyteError.invalidAcolyteEquip ∧
    equip_acolyte test_acolyte_player 7 1 ≠
      Except.error AcolyteError.notAcolyteOwner ∧
    equip_acolyte test_acolyte_player1 7 2 =
      Except.error AcolyteError.attributeError := by
  refine ⟨C3_equip_acolyte_amended.1 test_acolyte_player 9 3 (by norm_num)
      (by norm_num),
    C3_equip_acolyte_amended.2.2.1 _ 5 2 _ empty_acolyte rfl rfl
      (Or.inl rfl),
    C3_equip_acolyte_amended.2.1 test_acolyte_player 7 1,
    C3_equip_acolyte_amended.2.2.2 test_acolyte_player 7 test_acolyte_player1
      (by rfl)⟩

/-! ## Equipment (`Player.unequip_item`, `unequip_armor`, `unequip_accessory`)

Source:
```
async def unequip_item(self, conn):
    self.equipped_item = Weapon()
    await conn.execute("UPDATE players SET equipped_item = NULL ...")

async def unequip_armor(self, conn):
    await conn.execute(
        "UPDATE equips SET helmet = NULL, bodypiece = NULL, boots = NULL ...")

async def unequip_accessory(self, conn):
    await conn.execute("UPDATE equips SET accessory = NULL ...")
```
Only `unequip_item` reassigns the in-memory reference; the armor and
accessory variants issue the null write and leave `self.helmet`,
`self.bodypiece`, `self.boots`, `self.accessory` untouched. -/

structure Weapon where
  weapon_id : Option Nat
  attack : Int
  crit : Int
  type : Option String
deriving DecidableEq

/-- Modelled from the spec: the canonical empty weapon (`Weapon()` from the
external item module); identity unset, zero/neutral contributions. -/
def empty_weapon : Weapon :=
  { weapon_id := none, attack := 0, crit := 0, type := none }

structure Armor where
  armor_id : Option Nat
  slot : Option String
  defense : Int
deriving DecidableEq

/-- Modelled from the spec: the canonical empty armor piece. -/
def empty_armor : Armor := { armor_id := none, slot := none, defense := 0 }

structure Accessory where
  accessory_id : Option Nat
  /-- The accessory's prefix attribute (e.g. "Demonic"). -/
  pfx : Option String
  type : String
deriving DecidableEq

/-- Modelled from the spec: the canonical empty accessory. -/
def empty_accessory : Accessory :=
  { accessory_id := none, pfx := none, type := "" }

structure EquipState where
  equipped_item : Weapon
  helmet : Armor
  bodypiece : Armor
  boots : Armor
  accessory : Accessory
  db_equipped_item : Option Nat
  db_helmet : Option Nat
  db_bodypiece : Option Nat
  db_boots : Option Nat
  db_accessory : Option Nat
deriving DecidableEq

def unequip_item (p : EquipState) : EquipState :=
  { p with equipped_item := empty_weapon, db_equipped_item := none }

def unequip_armor (p : EquipState) : EquipState :=
  { p with db_helmet := none, db_bodypiece := none, db_boots := none }

def unequip_accessory (p : EquipState) : EquipState :=
  { p with db_accessory := none }

/-- A player wearing a full non-empty kit. -/
def test_equips : EquipState :=
  { equipped_item :=
      { weapon_id := some 11, attack := 50, crit := 5, type := some ("Sword") },
    helmet := { armor_id := some 21, slot := some ("Helmet"), defense := 4 },
    bodypiece :=
      { armor_id := some 22, slot := some ("Bodypiece"), defense := 6 },
    boots := { armor_id := some 23, slot := some ("Boots"), defense := 2 },
    accessory :=
      { accessory_id := some 31, pfx := some ("Demonic"), type := "Crown" },
    db_equipped_item := some 11, db_helmet := some 21, db_bodypiece := some 22,
    db_boots := some 23, db_accessory := some 31 }

/-- C4 (counterexample): after `unequip_armor` the in-memory helmet is NOT
the empty armor object (the method only nulls the stored columns), and after
`unequip_accessory` the in-memory accessory is NOT the empty accessory. -/
theorem C4_counterexample :
    (unequip_armor test_equips).helmet ≠ empty_armor ∧
    (unequip_accessory test_equips).accessory ≠ empty_accessory := by
  refine ⟨by simp [unequip_armor, test_equips, empty_armor], ?_⟩
  simp [unequip_accessory, test_equips, empty_accessory]

/-- C4 (amended): `unequip_item` replaces the in-memory weapon with the
canonical empty weapon and nulls the stored column; `unequip_armor` and
`unequip_accessory` only null their stored columns and leave the in-memory
helmet/bodypiece/boots/accessory references unchanged. -/
theorem C4_unequip_amended :
    ∀ p : EquipState,
      (unequip_item p).equipped_item = empty_weapon ∧
      (unequip_item p).db_equipped_item = none ∧
      (unequip_armor p).db_helmet = none ∧
      (unequip_armor p).db_bodypiece = none ∧
      (unequip_armor p).db_boots = none ∧
      (unequip_armor p).helmet = p.helmet ∧
      (unequip_armor p).bodypiece = p.bodypiece ∧
      (unequip_armor p).boots = p.boots ∧
      (unequip_accessory p).db_accessory = none ∧
      (unequip_accessory p).accessory = p.accessory :=
  fun _ => ⟨rfl, rfl, rfl, rfl, rfl, rfl, rfl, rfl, rfl, rfl⟩

/-! ## Association membership (`Player.join_assc`, `Player.leave_assc`)

Source (`join_assc`): validates the target association (empty →
`InvalidAssociationID`, full → `AssociationAtCapacity`), then
`UPDATE players SET assc = $1, guild_rank = 'Member'` and finally
`self.assc = assc` — the in-memory `self.guild_rank` is never assigned.

Source (`leave_assc`): returns immediately if `self.assc.is_empty`;
otherwise `UPDATE players SET assc = NULL, guild_rank = NULL`, clears this
player from the three `brotherhood_champions` columns, deletes the player's
`guild_bank_account` row crediting its funds to stored gold, and finally
`self.assc = Association()` — again the in-memory `self.guild_rank` is never
cleared, and the in-memory `self.gold` is not credited. -/

structure Association where
  assc_id : Option Nat
  type : Option String
  /-- Modelled from the spec: the association's level
  (`Association.get_level`, external value object). -/
  level : Nat
deriving DecidableEq

/-- Modelled from the spec: `Association.is_empty`, true exactly for the
canonical empty association object. -/
def Association.is_empty (a : Association) : Bool := a.assc_id.isNone

/-- Modelled from the spec: the canonical empty association
(`Association()`). -/
def empty_association : Association :=
  { assc_id := none, type := none, level := 0 }

inductive AssociationError
  | invalidAssociationID
  | associationAtCapacity
deriving DecidableEq

structure AsscState where
  disc_id : Nat
  assc : Association
  guild_rank : Option String
  gold : Int
  db_assc : Option Nat
  db_guild_rank : Option String
  db_gold : Int
  db_champ1 : Option Nat
  db_champ2 : Option Nat
  db_champ3 : Option Nat
  db_bank_account : Option Int
deriving DecidableEq

/-- `join_assc`.  `assc` is the hydrated value object for the requested ID
(`get_assc_by_id` is external, so its result is a parameter); member count
and capacity come from external queries and are parameters likewise. -/
def join_assc (p : AsscState) (assc : Association)
    (member_count capacity : Nat) : Except AssociationError AsscState :=
  if assc.is_empty then Except.error AssociationError.invalidAssociationID
  else if capacity ≤ member_count then
    Except.error AssociationError.associationAtCapacity
  else
    Except.ok { p with db_assc := assc.assc_id,
                       db_guild_rank := some ("Member"),
                       assc := assc }

def leave_assc (p : AsscState) : AsscState :=
  if p.assc.is_empty then p
  else
    let p1 := { p with db_assc := none, db_guild_rank := none }
    let p2 := { p1 with
      db_champ1 := if p1.db_champ1 = some p1.disc_id then none else p1.db_champ1,
      db_champ2 := if p1.db_champ2 = some p1.disc_id then none else p1.db_champ2,
      db_champ3 := if p1.db_champ3 = some p1.disc_id then none else p1.db_champ3 }
    let p3 := match p2.db_bank_account with
      | some funds =>
          { p2 with db_bank_account := none, db_gold := p2.db_gold + funds }
      | none => p2
    { p3 with assc := empty_association }

/-- A brotherhood association with some members and a free slot. -/
def test_association : Association :=
  { assc_id := some 3, type := some ("Brotherhood"), level := 2 }

/-- An unassociated player about to join. -/
def test_assc_state : AsscState :=
  { disc_id := 42, assc := empty_association, guild_rank := none, gold := 100,
    db_assc := none, db_guild_rank := none, db_gold := 100,
    db_champ1 := none, db_champ2 := none, db_champ3 := none,
    db_bank_account := none }

/-- The state `join_assc` produces from `test_assc_state`. -/
def test_assc_state_joined : AsscState :=
  { test_assc_state with db_assc := some 3,
                         db_guild_rank := some ("Member"),
                         assc := test_association }

/-- A hydrated member (rank loaded from storage) about to leave. -/
def test_member_state : AsscState :=
  { disc_id := 42, assc := test_association, guild_rank := some ("Member"),
    gold := 100, db_assc := some 3, db_guild_rank := some ("Member"),
    db_gold := 100, db_champ1 := some 42, db_champ2 := none,
    db_champ3 := none, db_bank_account := some 250 }

/-- C5 (counterexample): after a successful `join_assc` the in-memory rank is
still unset while the in-memory association reference is non-empty, and
after `leave_assc` the in-memory rank is still "Member" while the reference
is empty — in both cases "rank is unset iff the association reference is
empty" fails on the aggregate. -/
theorem C5_counterexample :
    join_assc test_assc_state test_association 5 50 =
      Except.ok test_assc_state_joined ∧
    test_assc_state_joined.guild_rank = none ∧
    test_assc_state_joined.assc.is_empty = false ∧
    (leave_assc test_member_state).guild_rank = some ("Member") ∧
    (leave_assc test_member_state).assc.is_empty = true := by
  refine ⟨by rfl, by rfl, by rfl, by rfl, by rfl⟩

/-- C5 (amended): a successful `join_assc` sets the in-memory reference and
writes both the reference and the rank "Member" to storage, but leaves the
in-memory rank unchanged; `leave_assc` on an associated player empties the
in-memory reference and nulls both stored fields (and is a no-op when
already unassociated), but leaves the in-memory rank unchanged.  The
invariant "rank is unset iff the reference is empty" therefore holds of the
stored pair after either operation, but not of the in-memory pair. -/
theorem C5_assc_amended :
    (∀ (p : AsscState) (assc : Association) (mc cap : Nat) (q : AsscState),
        join_assc p assc mc cap = Except.ok q →
        q.assc = assc ∧ q.db_assc = assc.assc_id ∧
        q.db_guild_rank = some ("Member") ∧
        q.guild_rank = p.guild_rank ∧
        ((q.db_guild_rank = none) ↔ (q.db_assc = none))) ∧
    (∀ p : AsscState, p.assc.is_empty = false →
        (leave_assc p).assc = empty_association ∧
        (leave_assc p).db_assc = none ∧
        (leave_assc p).db_guild_rank = none ∧
        (leave_assc p).guild_rank = p.guild_rank ∧
        (((leave_assc p).db_guild_rank = none) ↔
          ((leave_assc p).db_assc = none))) ∧
    (∀ p : AsscState, p.assc.is_empty = true → leave_assc p = p) := by
  refine ⟨?_, ?_, ?_⟩
  · intro p assc mc cap q h
    unfold join_assc at h
    by_cases he : assc.is_empty
    · rw [if_pos he] at h
      exact Except.noConfusion h
    · rw [if_neg he] at h
      by_cases hc : cap ≤ mc
      · rw [if_pos hc] at h
        exact Except.noConfusion h
      · rw [if_neg hc] at h
        injection h with h
        rw [← h]
        refine ⟨rfl, rfl, rfl, rfl, ?_⟩
        have hid : assc.assc_id ≠ none := by
          unfold Association.is_empty at he
          cases hval : assc.assc_id with
          | none => rw [hval] at he; simp at he
          | some v => simp
        simp [hid]
  · intro p hne
    unfold leave_assc
    rw [if_neg (by rw [hne]; simp)]
    cases hbank : p.db_bank_account with
    | none => exact ⟨rfl, rfl, rfl, rfl, by simp⟩
    | some funds => exact ⟨rfl, rfl, rfl, rfl, by simp⟩
  · intro p he
    unfold leave_assc
    rw [if_pos (by rw [he])]

/-- C5 witness: the amended theorem at the concrete join and leave states. -/
theorem C5_witness :
    (test_assc_state_joined.assc = test_association ∧
      test_assc_state_joined.db_assc = test_association.assc_id ∧
      test_assc_state_joined.db_guild_rank = some ("Member") ∧
      test_assc_state_joined.guild_rank = test_assc_state.guild_rank ∧
      ((test_assc_state_joined.db_guild_rank = none) ↔
        (test_assc_state_joined.db_assc = none))) ∧
    (leave_assc test_member_state).assc = empty_association ∧
    (leave_assc test_member_state).db_assc = none :=
  ⟨C5_assc_amended.1 test_assc_state test_association 5 50
      test_assc_state_joined (by rfl),
    (C5_assc_amended.2.1 test_member_state (by rfl)).1,
    (C5_assc_amended.2.1 test_member_state (by rfl)).2.1⟩

/-! ## Experience gain (`Player.check_xp_increase`, `give_gold`,
`give_rubidics`)

Source:
```
old_level = self.level
self.xp += xp
await conn.execute("UPDATE players SET xp = xp + $1 ...", xp, ...)
self.level = self.get_level()
if self.level > old_level:
    gold = self.level * 500
    rubidics = int(self.level / 30) + 1
    await self.give_gold(conn, gold)
    await self.give_rubidics(conn, rubidics)
    ... (level-up notification to Discord)
... (propagates xp/10 to each equipped acolyte's own counter)
```
`give_gold`/`give_rubidics` add the delta to both the in-memory field and
the stored column.  The acolyte propagation touches only acolyte state and
is outside this state record. -/

structure ProgState where
  xp : Nat
  level : Nat
  gold : Int
  rubidics : Int
  db_xp : Nat
  db_gold : Int
  db_rubidics : Int
deriving DecidableEq

def give_gold (p : ProgState) (gold : Int) : ProgState :=
  { p with gold := p.gold + gold, db_gold := p.db_gold + gold }

def give_rubidics (p : ProgState) (rubidics : Int) : ProgState :=
  { p with rubidics := p.rubidics + rubidics,
           db_rubidics := p.db_rubidics + rubidics }

def check_xp_increase (p : ProgState) (xp : Nat) : ProgState :=
  let old_level := p.level
  let new_level := get_level (p.xp + xp)
  let p1 : ProgState :=
    { p with xp := p.xp + xp, db_xp := p.db_xp + xp, level := new_level }
  if old_level < new_level then
    give_rubidics (give_gold p1 ((new_level : Int) * 500))
      (((new_level / 30 : Nat) : Int) + 1)
  else p1

/-- C7: when the recomputed level exceeds the old one, the xp-gain operation
grants exactly `new_level * 500` gold and `new_level / 30 + 1` rubidics (in
memory and in storage, via `give_gold`/`give_rubidics`); otherwise gold and
rubidics are unchanged.  In both cases xp and level are updated. -/
theorem C7_xp_rewards :
    ∀ (p : ProgState) (xp : Nat),
      (check_xp_increase p xp).xp = p.xp + xp ∧
      (check_xp_increase p xp).level = get_level (p.xp + xp) ∧
      (p.level < get_level (p.xp + xp) →
        (check_xp_increase p xp).gold =
          p.gold + (get_level (p.xp + xp) : Int) * 500 ∧
        (check_xp_increase p xp).db_gold =
          p.db_gold + (get_level (p.xp + xp) : Int) * 500 ∧
        (check_xp_increase p xp).rubidics =
          p.rubidics + ((get_level (p.xp + xp) / 30 : Nat) : Int) + 1 ∧
        (check_xp_increase p xp).db_rubidics =
          p.db_rubidics + ((get_level (p.xp + xp) / 30 : Nat) : Int) + 1) ∧
      (¬ p.level < get_level (p.xp + xp) →
        (check_xp_increase p xp).gold = p.gold ∧
        (check_xp_increase p xp).rubidics = p.rubidics) := by
  intro p xp
  unfold check_xp_increase
  by_cases h : p.level < get_level (p.xp + xp)
  · rw [if_pos h]
    unfold give_gold give_rubidics
    refine ⟨rfl, rfl, fun _ => ⟨rfl, rfl, by ring, by ring⟩, fun hc => absurd h hc⟩
  · rw [if_neg h]
    exact ⟨rfl, rfl, fun hc => absurd hc h, fun _ => ⟨rfl, rfl⟩⟩

/-- C7 witness: a level-0 player gaining 510 xp reaches level 1 and receives
500 gold and 1 rubidic; gaining 0 xp leaves currencies unchanged. -/
theorem C7_witness :
    (check_xp_increase
        { xp := 0, level := 0, gold := 0, rubidics := 0, db_xp := 0,
          db_gold := 0, db_rubidics := 0 } 510).gold =
      0 + (get_level (0 + 510) : Int) * 500 ∧
    (check_xp_increase
        { xp := 0, level := 0, gold := 0, rubidics := 0, db_xp := 0,
          db_gold := 0, db_rubidics := 0 } 0).gold = 0 := by
  constructor
  · have hlvl : get_level (0 + 510) = 1 :=
      get_level_cubic_eq 510 1 (by norm_num) (by norm_num [f])
        (by norm_num [f])
    exact (C7_xp_rewards
      { xp := 0, level := 0, gold := 0, rubidics := 0, db_xp := 0,
        db_gold := 0, db_rubidics := 0 } 510).2.2.1 (by rw [hlvl]; norm_num)
      |>.1
  · have hlvl : get_level (0 + 0) = 0 := get_level_lt500 0 (by norm_num)
    exact ((C7_xp_rewards
      { xp := 0, level := 0, gold := 0, rubidics := 0, db_xp := 0,
        db_gold := 0, db_rubidics := 0 } 0).2.2.2 (by rw [hlvl]; norm_num)).1

/-! ## Stat resolution (`Player.get_attack`) and character creation

Source:
```
attack = 10 + int(self.level / 2)
attack += self.equipped_item.attack
attack += self.acolyte1.get_attack()
attack += self.acolyte2.get_attack()
valid_weapons = Vars.OCCUPATIONS[self.occupation]['weapon_bonus']
if self.equipped_item.type in valid_weapons:
    attack += 20
attack += Vars.ORIGINS[self.origin]['atk_bonus']
if self.assc.type == "Brotherhood":
    lvl = self.assc.get_level()
    attack += int(lvl * (lvl + 1) / 4)
attack += Vars.OCCUPATIONS[self.occupation]['atk_bonus']
attack = int(attack * 1.1) if self.occupation == "Soldier" else attack
if self.accessory.prefix == "Demonic":
    attack += Vars.ACCESSORY_BONUS["Demonic"][self.accessory.type]
return attack
```
The static `Vars` tables are external to this repository slice, so they are
parameters (`GameVars`).  `int(attack * 1.1)` truncates toward zero and for
every attainable magnitude equals `Int.tdiv (attack * 11) 10` (the float
product `1.1` rounds up, so Python's truncation agrees with t-division);
`int(lvl * (lvl + 1) / 4)` with `lvl ≥ 0` is floor division by 4. -/

structure OccupationEntry where
  weapon_bonus : List String
  atk_bonus : Int

structure GameVars where
  occupations : String → OccupationEntry
  origins : String → Int
  accessory_bonus : String → String → Int

/-- Python `self.equipped_item.type in valid_weapons`: an unset weapon type
(`None`) is never in the list of weapon-type names. -/
def weapon_type_in (t : Option String) (ws : List String) : Bool :=
  match t with
  | some s => ws.contains s
  | none => false

structure StatsPlayer where
  xp : Nat
  level : Nat
  equipped_item : Weapon
  acolyte1 : Acolyte
  acolyte2 : Acolyte
  accessory : Accessory
  assc : Association
  occupation : String
  origin : String

def Association.get_level (a : Association) : Nat := a.level

def get_attack (v : GameVars) (p : StatsPlayer) : Int :=
  let attack : Int := 10 + ((p.level / 2 : Nat) : Int)
  let attack := attack + p.equipped_item.attack
  let attack := attack + p.acolyte1.get_attack
  let attack := attack + p.acolyte2.get_attack
  let valid_weapons := (v.occupations p.occupation).weapon_bonus
  let attack := if weapon_type_in p.equipped_item.type valid_weapons then
      attack + 20
    else attack
  let attack := attack + v.origins p.origin
  let attack := if p.assc.type = some ("Brotherhood") then
      attack + ((p.assc.get_level * (p.assc.get_level + 1) / 4 : Nat) : Int)
    else attack
  let attack := attack + (v.occupations p.occupation).atk_bonus
  let attack := if p.occupation = "Soldier" then Int.tdiv (attack * 11) 10
    else attack
  let attack := if p.accessory.pfx = some ("Demonic") then
      attack + v.accessory_bonus ("Demonic") p.accessory.type
    else attack
  attack

/-- The attack formula exactly as the specification words it: all additive
terms summed, then the Soldier multiplier (truncated ×1.1), then the Demonic
accessory bonus. -/
def attack_spec (v : GameVars) (p : StatsPlayer) : Int :=
  let base : Int :=
    10 + ((p.level / 2 : Nat) : Int) + p.equipped_item.attack
      + p.acolyte1.get_attack + p.acolyte2.get_attack
      + (if weapon_type_in p.equipped_item.type
            (v.occupations p.occupation).weapon_bonus then 20 else 0)
      + v.origins p.origin
      + (if p.assc.type = some ("Brotherhood") then
          ((p.assc.get_level * (p.assc.get_level + 1) / 4 : Nat) : Int)
        else 0)
      + (v.occupations p.occupation).atk_bonus
  let multiplied := if p.occupation = "Soldier" then Int.tdiv (base * 11) 10
    else base
  multiplied +
    (if p.accessory.pfx = some ("Demonic") then
      v.accessory_bonus ("Demonic") p.accessory.type
    else 0)

/-- C8: `get_attack` computes exactly the specification's formula, with the
Soldier ×1.1 truncation applied after all additive terms and before the
Demonic accessory bonus. -/
theorem C8_attack_formula :
    ∀ (v : GameVars) (p : StatsPlayer), get_attack v p = attack_spec v p := by
  intro v p
  unfold get_attack attack_spec
  dsimp only
  have hsplit : ∀ (c : Prop) (inst : Decidable c) (a b : Int),
      (if c then a + b else a) = a + (if c then b else 0) := by
    intro c inst a b
    split <;> simp
  rw [hsplit, hsplit, hsplit]

/-- Modelled from the spec: `create_character` inserts default rows into the
players/resources/strategy/equips tables and seeds a starter weapon via the
external item module (`create_weapon(conn, user_id, "Common", attack=20,
crit=0, weapon_name="Wooden Spear", weapon_type="Spear")`), then returns the
hydrated aggregate.  The item module and the store's column defaults are
outside this repository slice; per the spec (§3 lifecycle, §8 end-to-end
example) the returned aggregate starts at xp 0 with the starter weapon
equipped, no companions, no accessory and no association.  The store's
default occupation and origin strings are parameters. -/
def create_character (occupation origin : String) : StatsPlayer :=
  { xp := 0,
    level := get_level 0,
    equipped_item :=
      { weapon_id := some 1, attack := 20, crit := 0, type := some ("Spear") },
    acolyte1 := empty_acolyte,
    acolyte2 := empty_acolyte,
    accessory := empty_accessory,
    assc := empty_association,
    occupation := occupation,
    origin := origin }

/-- C9: a new character has xp 0 and level 0, and — provided the default
occupation and origin contribute nothing (zero attack bonuses, no
Spear weapon bonus, not the Soldier multiplier) — an attack stat of exactly
30 = base 10 + starter-weapon attack 20. -/
theorem C9_new_character_attack :
    ∀ (v : GameVars) (occupation origin : String),
      v.origins origin = 0 →
      (v.occupations occupation).atk_bonus = 0 →
      (v.occupations occupation).weapon_bonus.contains ("Spear") = false →
      occupation ≠ "Soldier" →
      (create_character occupation origin).xp = 0 ∧
      (create_character occupation origin).level = 0 ∧
      get_attack v (create_character occupation origin) = 30 := by
  intro v occupation origin h1 h2 h3 h4
  have hlvl : get_level 0 = 0 := get_level_lt500 0 (by norm_num)
  refine ⟨rfl, hlvl, ?_⟩
  unfold get_attack create_character
  dsimp only
  rw [hlvl]
  unfold weapon_type_in
  rw [h1, h2]
  dsimp only
  rw [h3]
  simp only [empty_acolyte, empty_accessory, empty_association,
    Acolyte.get_attack]
  rw [if_neg (show ¬((none : Option String) = some ("Demonic")) by simp)]
  rw [if_neg h4]
  rw [if_neg (show ¬((none : Option String) = some ("Brotherhood")) by simp)]
  rw [if_neg (show ¬(false = true) by simp)]
  norm_num

/-- C9 witness: with all-zero bonus tables and a non-Soldier default
occupation, the freshly created character's attack evaluates to 30. -/
theorem C9_witness :
    (create_character ("Farmer") ("Aplesta")).xp = 0 ∧
    (create_character ("Farmer") ("Aplesta")).level = 0 ∧
    get_attack
      { occupations := fun _ => { weapon_bonus := [], atk_bonus := 0 },
        origins := fun _ => 0,
        accessory_bonus := fun _ _ => 0 }
      (create_character ("Farmer") ("Aplesta")) = 30 :=
  C9_new_character_attack
    { occupations := fun _ => { weapon_bonus := [], atk_bonus := 0 },
      origins := fun _ => 0,
      accessory_bonus := fun _ _ => 0 }
    ("Farmer") ("Aplesta") rfl rfl rfl (by decide)
